import Mathlib

/-!
Verification of the content-recognition UI coordinator
(`source/contentRecog/recogUi.py`).

The module is embedded shallowly: each Python method becomes a Lean
function from explicit state to new state plus an ordered list of
observable `Effect`s (user messages, log calls, queued focus events,
`core.callLater` timer arming, screen capture, recognizer invocations,
cancellation requests, LiveText monitoring calls).  The module-global
`_activeRecog` pointer becomes a `GlobalState` record holding an
optional session identifier; session objects
(`RefreshableRecogResultNVDAObject` instances) become `RecogSession`
records.  Exceptions that the Python code would leave uncaught are
modelled by `Option` (a `none` result).
-/

namespace RecogUi

/-- An opaque, serialisable reading position: the offsets of a text
range, independent of the result object it was taken from
(`textInfos` bookmark). -/
structure Bookmark where
  start : Nat
  stop : Nat
deriving DecidableEq, Repr

/-- A text range over a result document: the document text it views
plus start/stop character offsets (the fake selection/caret kept by
`RecogResultNVDAObject`). -/
structure TextInfo where
  text : String
  start : Nat
  stop : Nat
deriving DecidableEq, Repr

/-- `TextInfo.collapse()`: collapse the range to its start offset. -/
def TextInfo.collapse (ti : TextInfo) : TextInfo :=
  { ti with stop := ti.start }

/-- `TextInfo.bookmark`: serialise the range's offsets, dropping the
identity of the text it was made from. -/
def TextInfo.bookmark (ti : TextInfo) : Bookmark :=
  { start := ti.start, stop := ti.stop }

/-- The `textInfos` position argument of `makeTextInfo`:
`POSITION_FIRST`, `POSITION_SELECTION`, `POSITION_CARET`, or a
bookmark previously taken from a `TextInfo`. -/
inductive Position where
  | first
  | selection
  | caret
  | bookmark (b : Bookmark)
deriving DecidableEq, Repr

/-- The slice of a `ContentRecognizer` that `recogUi.py` consumes:
the outcomes of its two validation calls, its auto-refresh policy, and
its preferred capture scaling. -/
structure RecognizerPort where
  validateObject : Bool
  validateCaptureBounds : Bool
  allowAutoRefresh : Bool
  autoRefreshInterval : Nat
  resizeFactor : Int
deriving DecidableEq, Repr

/-- The capture geometry handed to `screenBitmap` and the recognizer
(`RecogImageInfo`). -/
structure RecogImageInfo where
  screenLeft : Int
  screenTop : Int
  screenWidth : Int
  screenHeight : Int
  recogWidth : Int
  recogHeight : Int
deriving DecidableEq, Repr

/-- Modelled from the spec: `RecogImageInfo.createFromRecognizer` is
defined in `contentRecog/__init__.py`, which is not among these
sources.  Per the spec, an ImageRegion is "derived once from a
target's on-screen bounds and the recognizer's preferred resolution;
invalid (non-positive width/height) is a construction error"; the
`ValueError` is modelled as `none`. -/
def RecogImageInfo.createFromRecognizer (left top width height : Int)
    (r : RecognizerPort) : Option RecogImageInfo :=
  if width ≤ 0 ∨ height ≤ 0 then none
  else some
    { screenLeft := left, screenTop := top,
      screenWidth := width, screenHeight := height,
      recogWidth := width * r.resizeFactor,
      recogHeight := height * r.resizeFactor }

/-- One observable side effect, in program order.  `inlineMessage` is a
direct `ui.message` call; `queuedMessage` is `ui.message` queued to the
main thread via `queueHandler.queueFunction`; `queuedFocusEvent` is the
`eventHandler.queueEvent("gainFocus", self)` performed by `setFocus`;
`armRefreshTimer` is a `core.callLater(delay, self._recognize,
self._onResult)` call; `installActive` records the assignment of a new
session to the module-global `_activeRecog`. -/
inductive Effect where
  | inlineMessage (text : String)
  | queuedMessage (text : String)
  | logError
  | logDebugWarning
  | queuedFocusEvent
  | armRefreshTimer (delayMs : Nat)
  | captureImage
  | recognizeCall
  | cancelCall
  | stopMonitoringCall
  | startMonitoringCall
  | textChangeEvent
  | installActive (id : Nat)
deriving DecidableEq, Repr

/-- Translated message: "Recognition failed". -/
def recognitionFailedMsg : String := "Recognition failed"

/-- Translated message: "Refresh of recognition result failed". -/
def refreshFailedMsg : String := "Refresh of recognition result failed"

/-- Translated message: "Already in a content recognition result". -/
def alreadyInResultMsg : String := "Already in a content recognition result"

/-- Translated message: "Content is not visible". -/
def notVisibleMsg : String := "Content is not visible"

/-- Translated message: "Recognizing". -/
def recognizingMsg : String := "Recognizing"

/-- Translated message shown by `script_refreshBuffer` when the result
is already updated automatically. -/
def alreadyAutoUpdatedMsg : String :=
  "The result of content recognition is already automatically updated"

/-- The state of one `RefreshableRecogResultNVDAObject`: its
recognizer, capture geometry, optional result (modelled by the result's
text), the fake selection `_selection` (unset until a first result
arrives), and whether the object currently is the focus object
(`_get_hasFocus`: `self is api.getFocusObject()`), an
environment-determined fact sampled when a callback runs. -/
structure RecogSession where
  recognizer : RecognizerPort
  imageInfo : RecogImageInfo
  result : Option String
  sel : Option TextInfo
  hasFocus : Bool
deriving DecidableEq, Repr

/-- Modelled from the spec: the result text contract
(`makeTextView(ownerPresenter, position)`, bookmark resolve) is
implemented by `RecognitionResult` in `contentRecog/__init__.py`, not
among these sources.  `first` positions a collapsed range at the start
of the result text; a bookmark re-resolves to the same offsets when
they still lie within the text, with the spec's fallback "if the
bookmark no longer resolves, collapse to start-of-text". -/
def RecognitionResult.makeTextInfo (text : String) (pos : Position) : TextInfo :=
  match pos with
  | .bookmark b =>
      if b.start ≤ b.stop ∧ b.stop ≤ text.length then
        { text := text, start := b.start, stop := b.stop }
      else
        { text := text, start := 0, stop := 0 }
  | _ => { text := text, start := 0, stop := 0 }

/-- `RecogResultNVDAObject.makeTextInfo`: selection and caret resolve
from the stored fake selection (caret = collapsed selection); any other
position delegates to the result's own text view.  A `none` models the
`AttributeError`/`NoneType` error the Python code would raise when the
needed attribute is unset. -/
def RecogSession.makeTextInfo (s : RecogSession) (pos : Position) : Option TextInfo :=
  match pos with
  | .selection => s.sel
  | .caret => s.sel.map TextInfo.collapse
  | p => s.result.map (fun text => RecognitionResult.makeTextInfo text p)

/-- `RefreshableRecogResultNVDAObject._recognize`: if a result exists
but the object no longer has focus, the user dismissed the result, so
do nothing; otherwise capture the screen bitmap and invoke the
recognizer. -/
def _recognize (s : RecogSession) : List Effect :=
  if s.result.isSome && !s.hasFocus then []
  else [.captureImage, .recognizeCall]

/-- `RefreshableRecogResultNVDAObject._scheduleRecognize`:
`core.callLater(self.recognizer.autoRefreshInterval, self._recognize,
self._onResult)`.  The returned timer handle is discarded by the
caller. -/
def _scheduleRecognize (s : RecogSession) : List Effect :=
  [.armRefreshTimer s.recognizer.autoRefreshInterval]

/-- The module-global state of `recogUi.py`: `_activeRecog` holds the
identity of the recognition in progress, if any; `nextId` is the model
bookkeeping that gives each newly constructed session a fresh
identity. -/
structure GlobalState where
  activeRecog : Option Nat
  nextId : Nat
deriving DecidableEq, Repr

/-- The number of sessions the module currently considers active. -/
def activeCount (g : GlobalState) : Nat :=
  match g.activeRecog with
  | none => 0
  | some _ => 1

/-- Well-formedness of the model bookkeeping: the active session, if
any, was issued an identifier before `nextId`. -/
def GlobalState.WF (g : GlobalState) : Prop :=
  match g.activeRecog with
  | none => True
  | some i => i < g.nextId

/-- `RefreshableRecogResultNVDAObject._onFirstResult`: unconditionally
clear the module-global `_activeRecog`; on an exception, log the error
and queue a "Recognition failed" message; on success, install the
result, set the fake selection to the start of the result's text,
queue a focus-raising event (`setFocus` queues, it does not execute
inline), and arm the auto-refresh timer when the recognizer allows
it.  There is no focus check on this path. -/
def _onFirstResult (g : GlobalState) (s : RecogSession)
    (result : Except String String) :
    GlobalState × RecogSession × List Effect :=
  let g2 : GlobalState := { g with activeRecog := none }
  match result with
  | .error _ =>
      (g2, s, [.logError, .queuedMessage recognitionFailedMsg])
  | .ok text =>
      let s2 : RecogSession := { s with result := some text }
      let s3 : RecogSession := { s2 with sel := s2.makeTextInfo .first }
      (g2, s3,
        [.queuedFocusEvent] ++
          (if s.recognizer.allowAutoRefresh then _scheduleRecognize s else []))

/-- `RefreshableRecogResultNVDAObject._onResult`: if the object no
longer has focus the user dismissed the result, so discard the
callback entirely; on an exception, log, queue a "Refresh of
recognition result failed" message and stop LiveText monitoring; on
success, replace the result, re-resolve the old selection's bookmark
against the new result, emit a LiveText text-change notification, and
re-arm the auto-refresh timer when the recognizer allows it.  `none`
models the uncaught error of reading `_selection` when it was never
set. -/
def _onResult (s : RecogSession) (result : Except String String) :
    Option (RecogSession × List Effect) :=
  if !s.hasFocus then some (s, [])
  else
    match result with
    | .error _ =>
        some (s, [.logError, .queuedMessage refreshFailedMsg, .stopMonitoringCall])
    | .ok text =>
        match s.sel with
        | none => none
        | some oldSel =>
            let s2 : RecogSession := { s with result := some text }
            let s3 : RecogSession :=
              { s2 with sel := s2.makeTextInfo (.bookmark oldSel.bookmark) }
            some (s3,
              [.textChangeEvent] ++
                (if s.recognizer.allowAutoRefresh then _scheduleRecognize s else []))

/-- `RefreshableRecogResultNVDAObject.script_refreshBuffer`: when the
recognizer refreshes automatically, report that and change nothing;
otherwise schedule one immediate `_recognize`/`_onResult` cycle via
`core.callLater(0, ...)`. -/
def script_refreshBuffer (s : RecogSession) : RecogSession × List Effect :=
  if s.recognizer.allowAutoRefresh then
    (s, [.inlineMessage alreadyAutoUpdatedMsg])
  else
    (s, [.armRefreshTimer 0])

/-- `RefreshableRecogResultNVDAObject.event_gainFocus`: after the
inherited handling, start LiveText monitoring when the recognizer
auto-refreshes. -/
def event_gainFocus (s : RecogSession) : List Effect :=
  if s.recognizer.allowAutoRefresh then [.startMonitoringCall] else []

/-- `RefreshableRecogResultNVDAObject.event_loseFocus`: the body only
calls `self.stopMonitoring()` (a no-op if monitoring never started)
and the inherited handler.  No `core.callLater` handle is referenced
anywhere in the class — the handles returned at the two call sites are
discarded — so no pending timer is cancelled here. -/
def event_loseFocus (_s : RecogSession) : List Effect :=
  [.stopMonitoringCall]

/-- `RefreshableRecogResultNVDAObject.start`: run the first
capture/recognize cycle, delivering to `_onFirstResult`. -/
def start (s : RecogSession) : List Effect :=
  _recognize s

/-- A session together with whether a `core.callLater` refresh timer
armed for it is still pending in the scheduler. -/
structure TimedSession where
  sess : RecogSession
  refreshTimerPending : Bool
deriving DecidableEq, Repr

/-- Environment step: focus moves away from the result object.  The
`hasFocus` sample flips to false and the `event_loseFocus` handler
runs; the pending-timer flag is untouched because the handler holds no
reference to the timer. -/
def loseFocusStep (t : TimedSession) : TimedSession × List Effect :=
  ({ sess := { t.sess with hasFocus := false },
     refreshTimerPending := t.refreshTimerPending },
   event_loseFocus t.sess)

/-- Scheduler step: a pending refresh timer expires and runs its
callback `self._recognize` (with `self._onResult` as the result
callback); with no pending timer nothing happens. -/
def timerFireStep (t : TimedSession) : TimedSession × List Effect :=
  if t.refreshTimerPending then
    ({ t with refreshTimerPending := false }, _recognize t.sess)
  else
    (t, [])

/-- The state of a freshly constructed
`RefreshableRecogResultNVDAObject`: no result yet, hence no fake
selection (`__init__` only sets `_selection` when given a result), and
not focused (focus is on the parent object it was created under). -/
def newSessionFor (recognizer : RecognizerPort) (imgInfo : RecogImageInfo) :
    RecogSession :=
  { recognizer := recognizer, imageInfo := imgInfo,
    result := none, sel := none, hasFocus := false }

/-- `recognizeNavigatorObject`: the guarded entry point.  Inputs that
the Python code reads from the environment are parameters: whether the
focus object already is a recognition result, and the navigator
object's location (`none` models a location whose unpacking raises
`TypeError`).  Returns the new global state, the newly created session
if one was started, and the effect trace in program order. -/
def recognizeNavigatorObject (g : GlobalState) (recognizer : RecognizerPort)
    (focusIsRecogResult : Bool) (navLocation : Option (Int × Int × Int × Int)) :
    GlobalState × Option RecogSession × List Effect :=
  if focusIsRecogResult then
    (g, none, [.inlineMessage alreadyInResultMsg])
  else if !recognizer.validateObject then
    (g, none, [])
  else
    match navLocation with
    | none => (g, none, [.logDebugWarning, .inlineMessage notVisibleMsg])
    | some (left, top, width, height) =>
      if !recognizer.validateCaptureBounds then
        (g, none, [])
      else
        match RecogImageInfo.createFromRecognizer left top width height recognizer with
        | none => (g, none, [.inlineMessage notVisibleMsg])
        | some imgInfo =>
          let cancelEffs : List Effect :=
            if g.activeRecog.isSome then [.cancelCall] else []
          let s := newSessionFor recognizer imgInfo
          ({ activeRecog := some g.nextId, nextId := g.nextId + 1 },
           some s,
           cancelEffs ++
             [.inlineMessage recognizingMsg, .installActive g.nextId] ++
             start s)

/-- A recognizer that accepts everything and auto-refreshes every
100 ms, for concrete evaluations. -/
def rTrue : RecognizerPort :=
  { validateObject := true, validateCaptureBounds := true,
    allowAutoRefresh := true, autoRefreshInterval := 100, resizeFactor := 1 }

/-- `rTrue` with auto-refresh disabled. -/
def rNoAuto : RecognizerPort := { rTrue with allowAutoRefresh := false }

/-- `rTrue` rejecting the navigator object. -/
def rRejectObject : RecognizerPort := { rTrue with validateObject := false }

/-- `rTrue` rejecting the capture bounds. -/
def rRejectBounds : RecognizerPort := { rTrue with validateCaptureBounds := false }

/-- A concrete capture geometry. -/
def imgA : RecogImageInfo :=
  { screenLeft := 0, screenTop := 0, screenWidth := 10, screenHeight := 10,
    recogWidth := 10, recogHeight := 10 }

/-- A focused session holding the result "hello", cursor collapsed at
offset 0. -/
def sessA : RecogSession :=
  { recognizer := rTrue, imageInfo := imgA, result := some "hello",
    sel := some { text := "hello", start := 0, stop := 0 }, hasFocus := true }

/-- `sessA` with a non-auto-refreshing recognizer. -/
def sessManual : RecogSession := { sessA with recognizer := rNoAuto }

/-- With positive width and height, ImageRegion construction succeeds. -/
theorem createFromRecognizer_pos (left top width height : Int) (r : RecognizerPort)
    (hw : 0 < width) (hh : 0 < height) :
    RecogImageInfo.createFromRecognizer left top width height r
      = some { screenLeft := left, screenTop := top,
               screenWidth := width, screenHeight := height,
               recogWidth := width * r.resizeFactor,
               recogHeight := height * r.resizeFactor } := by
  unfold RecogImageInfo.createFromRecognizer
  rw [if_neg (by omega)]

/-- C1 counterexample: a session that does not hold focus when its
first success result arrives (its presenter was dismissed or replaced
before ever gaining focus).  Contrary to the claim, `_onFirstResult`
installs the result, queues a focus-raising event and arms the refresh
timer anyway: the late result is not discarded. -/
theorem firstResult_installs_despite_lost_focus :
    ((_onFirstResult { activeRecog := some 7, nextId := 8 }
        { sessA with hasFocus := false, result := none } (.ok "late")).2.1.result
      = some "late") ∧
    Effect.queuedFocusEvent ∈
      (_onFirstResult { activeRecog := some 7, nextId := 8 }
        { sessA with hasFocus := false, result := none } (.ok "late")).2.2 ∧
    Effect.armRefreshTimer 100 ∈
      (_onFirstResult { activeRecog := some 7, nextId := 8 }
        { sessA with hasFocus := false, result := none } (.ok "late")).2.2 := by
  decide

/-- C1 (amended): only the refresh callback `_onResult` has the race
guard — when the presenter no longer holds focus, a refresh callback
(success or failure) is discarded with no state change and no effect.
The first-result callback `_onFirstResult` performs no focus check: on
success it installs the result, queues a focus-raising event, and arms
the refresh timer when the recognizer allows it, even when the
presenter does not hold focus; its only staleness handling is clearing
the module-global `_activeRecog`. -/
theorem lateResult_guard_only_in_onResult (g : GlobalState) (s : RecogSession)
    (r : Except String String) (text : String) (h : s.hasFocus = false) :
    _onResult s r = some (s, []) ∧
    (_onFirstResult g s (.ok text)).2.1.result = some text ∧
    Effect.queuedFocusEvent ∈ (_onFirstResult g s (.ok text)).2.2 := by
  refine ⟨?_, ?_, ?_⟩ <;>
    simp [_onResult, _onFirstResult, h, RecogSession.makeTextInfo]

/-- Witness for `lateResult_guard_only_in_onResult` at a concrete
unfocused session. -/
theorem lateResult_guard_only_in_onResult_w :
    _onResult { sessA with hasFocus := false } (.error "e")
        = some ({ sessA with hasFocus := false }, []) ∧
    (_onFirstResult { activeRecog := none, nextId := 0 }
        { sessA with hasFocus := false } (.ok "x")).2.1.result = some "x" ∧
    Effect.queuedFocusEvent ∈
      (_onFirstResult { activeRecog := none, nextId := 0 }
        { sessA with hasFocus := false } (.ok "x")).2.2 :=
  lateResult_guard_only_in_onResult { activeRecog := none, nextId := 0 }
    { sessA with hasFocus := false } (.error "e") "x" rfl

/-- C5: on a successful first-recognition callback the session's
result is set, the fake selection is collapsed at offset 0 of the new
result's text, `makeTextInfo` at `first` yields the result's text view
and at `caret` the selection collapsed at offset 0, the focus-raising
event is queued (the `queuedFocusEvent` effect — `setFocus` calls
`eventHandler.queueEvent`, never an inline focus change), and the
refresh timer is armed if and only if the recognizer allows
auto-refresh. -/
theorem firstResult_success_behavior (g : GlobalState) (s : RecogSession)
    (text : String) :
    ((_onFirstResult g s (.ok text)).2.1.result = some text) ∧
    ((_onFirstResult g s (.ok text)).2.1.sel
        = some { text := text, start := 0, stop := 0 }) ∧
    ((_onFirstResult g s (.ok text)).2.1.makeTextInfo .first
        = some { text := text, start := 0, stop := 0 }) ∧
    ((_onFirstResult g s (.ok text)).2.1.makeTextInfo .caret
        = some { text := text, start := 0, stop := 0 }) ∧
    ((_onFirstResult g s (.ok text)).2.2
        = [.queuedFocusEvent] ++
            (if s.recognizer.allowAutoRefresh then
              [.armRefreshTimer s.recognizer.autoRefreshInterval] else [])) ∧
    ((Effect.armRefreshTimer s.recognizer.autoRefreshInterval
        ∈ (_onFirstResult g s (.ok text)).2.2)
      ↔ s.recognizer.allowAutoRefresh = true) := by
  cases hA : s.recognizer.allowAutoRefresh <;>
    simp [_onFirstResult, RecogSession.makeTextInfo, RecognitionResult.makeTextInfo,
      _scheduleRecognize, TextInfo.collapse, hA]

/-- C7: a failing first-recognition callback logs the error, queues a
"Recognition failed" message to the UI context, clears `_activeRecog`,
and leaves the session untouched: its result stays as it was (absent,
for a first callback), no focus-raising event is queued, and no
refresh timer is armed. -/
theorem firstResult_failure_behavior (g : GlobalState) (s : RecogSession)
    (err : String) :
    _onFirstResult g s (.error err)
      = ({ g with activeRecog := none }, s,
         [.logError, .queuedMessage recognitionFailedMsg]) := rfl

/-- C8: a failing refresh callback on a focused session logs the
error, queues the "Refresh of recognition result failed" message —
distinct from the first-recognition failure message — stops LiveText
monitoring, schedules no new refresh, and leaves the session's result
and selection untouched. -/
theorem refresh_failure_behavior (s : RecogSession) (err : String)
    (hf : s.hasFocus = true) :
    _onResult s (.error err)
        = some (s, [.logError, .queuedMessage refreshFailedMsg, .stopMonitoringCall]) ∧
    refreshFailedMsg ≠ recognitionFailedMsg := by
  constructor
  · simp [_onResult, hf]
  · decide

/-- Witness for `refresh_failure_behavior` at a concrete focused
session. -/
theorem refresh_failure_behavior_w :
    _onResult sessA (.error "boom")
        = some (sessA, [.logError, .queuedMessage refreshFailedMsg, .stopMonitoringCall]) ∧
    refreshFailedMsg ≠ recognitionFailedMsg :=
  refresh_failure_behavior sessA "boom" rfl

/-- C2: when all guards pass, `recognizeNavigatorObject` installs the
fresh session as the sole active one — the active pointer is the
single module global, so the active cardinality is 1 after (and at
most 1 always, by the shape of `GlobalState`), and the fresh
identifier differs from any previously active one.  When an old
session was active its recognizer's `cancel()` is requested, and the
effect trace shows the cancellation strictly precedes the installation
of the new session (`installActive`); the swap itself is one atomic
transition of this semantics, with no intermediate state in which two
sessions are active.  With no old session, no `cancel()` is issued. -/
theorem recognize_single_active (g : GlobalState) (r : RecognizerPort)
    (left top width height : Int) (hWF : g.WF)
    (hV : r.validateObject = true) (hB : r.validateCaptureBounds = true)
    (hw : 0 < width) (hh : 0 < height) :
    ((recognizeNavigatorObject g r false (some (left, top, width, height))).1.activeRecog
        = some g.nextId) ∧
    activeCount (recognizeNavigatorObject g r false (some (left, top, width, height))).1
        = 1 ∧
    (∀ i, g.activeRecog = some i → i ≠ g.nextId) ∧
    (g.activeRecog.isSome = true →
      (recognizeNavigatorObject g r false (some (left, top, width, height))).2.2
        = [.cancelCall, .inlineMessage recognizingMsg, .installActive g.nextId,
           .captureImage, .recognizeCall]) ∧
    (g.activeRecog = none →
      (recognizeNavigatorObject g r false (some (left, top, width, height))).2.2
        = [.inlineMessage recognizingMsg, .installActive g.nextId,
           .captureImage, .recognizeCall]) := by
  have hc := createFromRecognizer_pos left top width height r hw hh
  refine ⟨?_, ?_, ?_, ?_, ?_⟩
  · simp [recognizeNavigatorObject, hV, hB, hc]
  · simp [recognizeNavigatorObject, hV, hB, hc, activeCount]
  · intro i hi
    simp [GlobalState.WF, hi] at hWF
    omega
  · intro hsome
    simp [recognizeNavigatorObject, hV, hB, hc, hsome, start, _recognize, newSessionFor]
  · intro hnone
    simp [recognizeNavigatorObject, hV, hB, hc, hnone, start, _recognize, newSessionFor]

/-- Witness for `recognize_single_active`: an old session (id 0) is
active; starting a new one cancels it and installs id 1 as sole
active. -/
theorem recognize_single_active_w :
    ((recognizeNavigatorObject { activeRecog := some 0, nextId := 1 } rTrue false
        (some (0, 0, 10, 10))).1.activeRecog = some 1) ∧
    activeCount (recognizeNavigatorObject { activeRecog := some 0, nextId := 1 } rTrue false
        (some (0, 0, 10, 10))).1 = 1 ∧
    (∀ i, ({ activeRecog := some 0, nextId := 1 } : GlobalState).activeRecog = some i
        → i ≠ 1) ∧
    (({ activeRecog := some 0, nextId := 1 } : GlobalState).activeRecog.isSome = true →
      (recognizeNavigatorObject { activeRecog := some 0, nextId := 1 } rTrue false
          (some (0, 0, 10, 10))).2.2
        = [.cancelCall, .inlineMessage recognizingMsg, .installActive 1,
           .captureImage, .recognizeCall]) ∧
    (({ activeRecog := some 0, nextId := 1 } : GlobalState).activeRecog = none →
      (recognizeNavigatorObject { activeRecog := some 0, nextId := 1 } rTrue false
          (some (0, 0, 10, 10))).2.2
        = [.inlineMessage recognizingMsg, .installActive 1,
           .captureImage, .recognizeCall]) :=
  recognize_single_active { activeRecog := some 0, nextId := 1 } rTrue 0 0 10 10
    (by unfold GlobalState.WF; decide) rfl rfl (by decide) (by decide)

/-- C3 counterexample: a focused session with a result and a pending
auto-refresh timer.  Contrary to the claim, losing focus does not
cancel the timer: `event_loseFocus` only calls `stopMonitoring` and
holds no reference to the `core.callLater` handle (both call sites
discard it), so the timer is still pending afterwards and will fire
its callback. -/
theorem loseFocus_does_not_cancel_timer :
    ¬ ((loseFocusStep { sess := sessA, refreshTimerPending := true }).1.refreshTimerPending
        = false) := by
  decide

/-- C3 (amended): on focus loss the handler stops LiveText monitoring
but cancels no timer — the pending-timer state is unchanged.  The
armed refresh timer still fires its callback afterwards, but the
callback (`_recognize`) finds a session with a result and without
focus and discards the cycle, so no capture and no recognize call
occurs from a previously armed timer after focus loss: the claimed
observable holds by the `_recognize` guard, not by cancellation. -/
theorem loseFocus_then_timer_fires_no_capture (t : TimedSession)
    (h : t.sess.result.isSome = true) :
    (loseFocusStep t).2 = [.stopMonitoringCall] ∧
    (loseFocusStep t).1.refreshTimerPending = t.refreshTimerPending ∧
    (timerFireStep (loseFocusStep t).1).2 = [] ∧
    Effect.captureImage ∉ (timerFireStep (loseFocusStep t).1).2 ∧
    Effect.recognizeCall ∉ (timerFireStep (loseFocusStep t).1).2 := by
  cases hp : t.refreshTimerPending <;>
    simp [loseFocusStep, timerFireStep, event_loseFocus, _recognize, h, hp]

/-- Witness for `loseFocus_then_timer_fires_no_capture` at a concrete
focused session with a result and a pending timer. -/
theorem loseFocus_then_timer_fires_no_capture_w :
    (loseFocusStep { sess := sessA, refreshTimerPending := true }).2
        = [.stopMonitoringCall] ∧
    (loseFocusStep { sess := sessA, refreshTimerPending := true }).1.refreshTimerPending
        = ({ sess := sessA, refreshTimerPending := true } : TimedSession).refreshTimerPending ∧
    (timerFireStep (loseFocusStep { sess := sessA, refreshTimerPending := true }).1).2 = [] ∧
    Effect.captureImage ∉
      (timerFireStep (loseFocusStep { sess := sessA, refreshTimerPending := true }).1).2 ∧
    Effect.recognizeCall ∉
      (timerFireStep (loseFocusStep { sess := sessA, refreshTimerPending := true }).1).2 :=
  loseFocus_then_timer_fires_no_capture { sess := sessA, refreshTimerPending := true } rfl

/-- C4 counterexample: a recognizer whose `validateObject` returns
false.  The guard is a terminal early return, but contrary to the
claim it produces no user-facing message at all — the effect trace is
empty (`recognizeNavigatorObject` returns silently; any message on
this path would be the recognizer's own, outside this function). -/
theorem validateObject_guard_silent :
    (recognizeNavigatorObject { activeRecog := none, nextId := 0 } rRejectObject false
        (some (0, 0, 10, 10))).2.2 = [] := by
  decide

/-- C4 (amended): every failing validation guard of
`recognizeNavigatorObject` is a terminal early return with no state
change — the active pointer is untouched, no session is created, and
no cancel, capture or recognize call occurs.  The focus-on-result
guard, the invalid-location guard and the ImageRegion-construction
guard each emit a user-facing message; the `validateObject` and
`validateCaptureBounds` guards return without any message from this
function (a rejection message, if any, is the recognizer's own). -/
theorem guards_terminal_no_state_change (g : GlobalState) (r : RecognizerPort)
    (navLocation : Option (Int × Int × Int × Int)) (left top width height : Int) :
    (recognizeNavigatorObject g r true navLocation
      = (g, none, [.inlineMessage alreadyInResultMsg])) ∧
    (r.validateObject = false →
      recognizeNavigatorObject g r false navLocation = (g, none, [])) ∧
    (r.validateObject = true →
      recognizeNavigatorObject g r false none
        = (g, none, [.logDebugWarning, .inlineMessage notVisibleMsg])) ∧
    (r.validateObject = true → r.validateCaptureBounds = false →
      recognizeNavigatorObject g r false (some (left, top, width, height))
        = (g, none, [])) ∧
    (r.validateObject = true → r.validateCaptureBounds = true →
      (width ≤ 0 ∨ height ≤ 0) →
      recognizeNavigatorObject g r false (some (left, top, width, height))
        = (g, none, [.inlineMessage notVisibleMsg])) := by
  refine ⟨?_, ?_, ?_, ?_, ?_⟩
  · simp [recognizeNavigatorObject]
  · intro hV
    cases navLocation <;> simp [recognizeNavigatorObject, hV]
  · intro hV
    simp [recognizeNavigatorObject, hV]
  · intro hV hB
    simp [recognizeNavigatorObject, hV, hB]
  · intro hV hB hz
    have hc : RecogImageInfo.createFromRecognizer left top width height r = none := by
      unfold RecogImageInfo.createFromRecognizer
      rw [if_pos hz]
    simp [recognizeNavigatorObject, hV, hB, hc]

/-- Witness for `guards_terminal_no_state_change`: each of the five
guards exercised at a concrete input (focus already on a result view;
rejecting recognizer; location unpack failure; rejected capture
bounds; zero-width bounds). -/
theorem guards_terminal_no_state_change_w :
    (recognizeNavigatorObject { activeRecog := none, nextId := 0 } rTrue true
        (some (0, 0, 10, 10))
      = ({ activeRecog := none, nextId := 0 }, none,
         [.inlineMessage alreadyInResultMsg])) ∧
    (recognizeNavigatorObject { activeRecog := none, nextId := 0 } rRejectObject false
        (some (0, 0, 10, 10))
      = ({ activeRecog := none, nextId := 0 }, none, [])) ∧
    (recognizeNavigatorObject { activeRecog := none, nextId := 0 } rTrue false none
      = ({ activeRecog := none, nextId := 0 }, none,
         [.logDebugWarning, .inlineMessage notVisibleMsg])) ∧
    (recognizeNavigatorObject { activeRecog := none, nextId := 0 } rRejectBounds false
        (some (0, 0, 10, 10))
      = ({ activeRecog := none, nextId := 0 }, none, [])) ∧
    (recognizeNavigatorObject { activeRecog := none, nextId := 0 } rTrue false
        (some (0, 0, 0, 10))
      = ({ activeRecog := none, nextId := 0 }, none,
         [.inlineMessage notVisibleMsg])) :=
  ⟨(guards_terminal_no_state_change { activeRecog := none, nextId := 0 } rTrue
      (some (0, 0, 10, 10)) 0 0 10 10).1,
   (guards_terminal_no_state_change { activeRecog := none, nextId := 0 } rRejectObject
      (some (0, 0, 10, 10)) 0 0 10 10).2.1 rfl,
   (guards_terminal_no_state_change { activeRecog := none, nextId := 0 } rTrue
      none 0 0 10 10).2.2.1 rfl,
   (guards_terminal_no_state_change { activeRecog := none, nextId := 0 } rRejectBounds
      (some (0, 0, 10, 10)) 0 0 10 10).2.2.2.1 rfl rfl,
   (guards_terminal_no_state_change { activeRecog := none, nextId := 0 } rTrue
      (some (0, 0, 0, 10)) 0 0 0 10).2.2.2.2 rfl rfl (Or.inl (by decide))⟩

/-- C6: a successful refresh callback on a focused session replaces
the result wholesale, re-resolves the old selection's bookmark against
the new result's text (keeping the offsets when they still lie within
the text, collapsing to start-of-text otherwise), emits exactly one
text-change notification, and re-arms the refresh timer if and only if
the recognizer allows auto-refresh. -/
theorem refresh_success_behavior (s : RecogSession) (ti : TextInfo)
    (newText : String) (hf : s.hasFocus = true) (hsel : s.sel = some ti) :
    ∃ s2 effs, _onResult s (.ok newText) = some (s2, effs) ∧
      s2.result = some newText ∧
      s2.sel = some (if ti.start ≤ ti.stop ∧ ti.stop ≤ newText.length then
                       { text := newText, start := ti.start, stop := ti.stop }
                     else { text := newText, start := 0, stop := 0 }) ∧
      List.count Effect.textChangeEvent effs = 1 ∧
      (Effect.armRefreshTimer s.recognizer.autoRefreshInterval ∈ effs
        ↔ s.recognizer.allowAutoRefresh = true) := by
  refine ⟨{ s with
            result := some newText,
            sel := some (RecognitionResult.makeTextInfo newText (.bookmark ti.bookmark)) },
          [.textChangeEvent] ++
            (if s.recognizer.allowAutoRefresh then
              [.armRefreshTimer s.recognizer.autoRefreshInterval] else []),
          ?_, ?_, ?_, ?_, ?_⟩ <;>
    cases hA : s.recognizer.allowAutoRefresh <;>
      simp [_onResult, hf, hsel, hA, RecogSession.makeTextInfo,
        RecognitionResult.makeTextInfo, TextInfo.bookmark, _scheduleRecognize,
        List.count_cons]

/-- Witness for `refresh_success_behavior`: the focused session
holding "hello" with the cursor collapsed at offset 0 refreshes to
"Hello WORLD". -/
theorem refresh_success_behavior_w :
    ∃ s2 effs, _onResult sessA (.ok "Hello WORLD") = some (s2, effs) ∧
      s2.result = some "Hello WORLD" ∧
      s2.sel = some (if (0 : Nat) ≤ 0 ∧ 0 ≤ ("Hello WORLD" : String).length then
                       { text := "Hello WORLD", start := 0, stop := 0 }
                     else { text := "Hello WORLD", start := 0, stop := 0 }) ∧
      List.count Effect.textChangeEvent effs = 1 ∧
      (Effect.armRefreshTimer sessA.recognizer.autoRefreshInterval ∈ effs
        ↔ sessA.recognizer.allowAutoRefresh = true) :=
  refresh_success_behavior sessA { text := "hello", start := 0, stop := 0 }
    "Hello WORLD" rfl rfl

/-- C9: a manual refresh request (`script_refreshBuffer`) on a session
whose recognizer auto-refreshes is refused with an informational
message and changes nothing — no timer armed, no recognize.  With
auto-refresh off it schedules one immediate cycle
(`core.callLater(0, ...)`); that cycle performs exactly one
capture/recognize, and its success replaces the result while
preserving the resolved offsets of the cursor bookmark when the
underlying text is unchanged. -/
theorem manual_refresh_behavior (s : RecogSession) (ti : TextInfo) (txt : String)
    (hsel : s.sel = some ti) (_hres : s.result = some txt) (hf : s.hasFocus = true)
    (hbm : ti.start ≤ ti.stop ∧ ti.stop ≤ txt.length) :
    (s.recognizer.allowAutoRefresh = true →
      script_refreshBuffer s = (s, [.inlineMessage alreadyAutoUpdatedMsg])) ∧
    (s.recognizer.allowAutoRefresh = false →
      script_refreshBuffer s = (s, [.armRefreshTimer 0]) ∧
      _recognize s = [.captureImage, .recognizeCall] ∧
      List.count Effect.recognizeCall (_recognize s) = 1 ∧
      _onResult s (.ok txt)
        = some ({ s with
                  result := some txt,
                  sel := some { text := txt, start := ti.start, stop := ti.stop } },
                [.textChangeEvent])) := by
  constructor
  · intro hA
    simp [script_refreshBuffer, hA]
  · intro hA
    refine ⟨?_, ?_, ?_, ?_⟩
    · simp [script_refreshBuffer, hA]
    · simp [_recognize, hf]
    · simp [_recognize, hf]
    · simp [_onResult, hf, hsel, hA, RecogSession.makeTextInfo,
        RecognitionResult.makeTextInfo, TextInfo.bookmark, _scheduleRecognize, hbm]

/-- Witness for `manual_refresh_behavior` at the concrete
non-auto-refreshing focused session holding "hello". -/
theorem manual_refresh_behavior_w :
    (sessManual.recognizer.allowAutoRefresh = true →
      script_refreshBuffer sessManual
        = (sessManual, [.inlineMessage alreadyAutoUpdatedMsg])) ∧
    (sessManual.recognizer.allowAutoRefresh = false →
      script_refreshBuffer sessManual = (sessManual, [.armRefreshTimer 0]) ∧
      _recognize sessManual = [.captureImage, .recognizeCall] ∧
      List.count Effect.recognizeCall (_recognize sessManual) = 1 ∧
      _onResult sessManual (.ok "hello")
        = some ({ sessManual with
                  result := some "hello",
                  sel := some { text := "hello", start := 0, stop := 0 } },
                [.textChangeEvent])) :=
  manual_refresh_behavior sessManual { text := "hello", start := 0, stop := 0 }
    "hello" rfl rfl rfl (by decide)

/-- C10: `_onFirstResult` sets the module-global `_activeRecog` to
`none` unconditionally — whatever it held, including the identifier of
a newer session installed after this session was replaced — so a
subsequent `recognizeNavigatorObject` call that passes its guards
issues no `cancel()`: a session past its first result (which may still
be focused and auto-refreshing) is never cancelled through
`_activeRecog`. -/
theorem firstResult_clears_active_unconditionally (g : GlobalState)
    (s : RecogSession) (res : Except String String) (r : RecognizerPort)
    (left top width height : Int)
    (hV : r.validateObject = true) (hB : r.validateCaptureBounds = true)
    (hw : 0 < width) (hh : 0 < height) :
    ((_onFirstResult g s res).1.activeRecog = none) ∧
    Effect.cancelCall ∉
      (recognizeNavigatorObject (_onFirstResult g s res).1 r false
        (some (left, top, width, height))).2.2 := by
  have hg : (_onFirstResult g s res).1 = { g with activeRecog := none } := by
    cases res <;> rfl
  have hc := createFromRecognizer_pos left top width height r hw hh
  rw [hg]
  constructor
  · rfl
  · simp [recognizeNavigatorObject, hV, hB, hc, start, _recognize, newSessionFor]

/-- Witness for `firstResult_clears_active_unconditionally`: a global
state already pointing at a newer session (id 3); the late first
result clears the pointer and the next start issues no cancel. -/
theorem firstResult_clears_active_unconditionally_w :
    ((_onFirstResult { activeRecog := some 3, nextId := 4 } sessA (.ok "x")).1.activeRecog
        = none) ∧
    Effect.cancelCall ∉
      (recognizeNavigatorObject
        (_onFirstResult { activeRecog := some 3, nextId := 4 } sessA (.ok "x")).1 rTrue
        false (some (0, 0, 10, 10))).2.2 :=
  firstResult_clears_active_unconditionally { activeRecog := some 3, nextId := 4 }
    sessA (.ok "x") rTrue 0 0 10 10 rfl rfl (by decide) (by decide)

end RecogUi
